import Mathlib

/-!
Verification of the client-side interactivity script `assets/js/script.js`
of a static portfolio page.  The script manipulates DOM class lists,
attributes and inline styles in response to browser events.  We give a
shallow embedding: class lists become `List String`, attributes become
`Option String`, and each event handler becomes a pure function on a
small state record.  The handler that can throw (the nav-link click
handler dereferences `getAttribute('href')` without a null check) is
embedded with `Except`.
-/

/-- `classList.contains cls` on a DOM token list modelled as a list of
class names. -/
def hasClass (cls : String) : List String → Bool
  | [] => false
  | c :: cs => c == cls || hasClass cls cs

/-- `classList.remove cls`: removes every occurrence of the token. -/
def removeClass (cls : String) : List String → List String
  | [] => []
  | c :: cs => if c == cls then removeClass cls cs else c :: removeClass cls cs

/-- `classList.add cls`: appends the token unless it is already present. -/
def addClass (cls : String) (cs : List String) : List String :=
  if hasClass cls cs then cs else cs ++ [cls]

/-- `classList.toggle cls`: removes the token and returns `false` if it was
present, otherwise appends it and returns `true`. -/
def toggleClass (cls : String) (cs : List String) : List String × Bool :=
  if hasClass cls cs then (removeClass cls cs, false) else (cs ++ [cls], true)

/-- The mutable state touched by `setupNavToggle` (script.js lines 31-65):
the class list of the `.nav__list` element, the `aria-expanded` attribute of
the `.nav__toggle` element (`none` when the attribute is absent), and
whether the toggle currently holds focus. -/
structure NavToggleState where
  listClasses : List String
  ariaExpanded : Option String
  toggleFocused : Bool
deriving DecidableEq, Repr

/-- The toggle click handler (lines 36-39):
`const open = list.classList.toggle('open'); toggle.setAttribute('aria-expanded', open)`.
`setAttribute` stringifies the boolean to "true"/"false". -/
def toggleClick (s : NavToggleState) : NavToggleState :=
  let r := toggleClass "open" s.listClasses
  { s with listClasses := r.1
           ariaExpanded := some (if r.2 then "true" else "false") }

/-- The click handler on the nav list (lines 42-47): when the event target
has class `nav__link`, remove `open` and set `aria-expanded` to "false";
otherwise do nothing. -/
def listClick (targetIsNavLink : Bool) (s : NavToggleState) : NavToggleState :=
  if targetIsNavLink then
    { s with listClasses := removeClass "open" s.listClasses
             ariaExpanded := some "false" }
  else s

/-- The document click handler (lines 50-55): when the event target is
neither inside the toggle nor inside the list, remove `open` and set
`aria-expanded` to "false". -/
def docClick (targetInToggleOrList : Bool) (s : NavToggleState) : NavToggleState :=
  if targetInToggleOrList then s
  else
    { s with listClasses := removeClass "open" s.listClasses
             ariaExpanded := some "false" }

/-- The document keydown handler (lines 58-64): on `Escape` while the list
has class `open`, remove it, set `aria-expanded` to "false" and focus the
toggle; otherwise do nothing. -/
def escapeKeydown (key : String) (s : NavToggleState) : NavToggleState :=
  if key == "Escape" && hasClass "open" s.listClasses then
    { s with listClasses := removeClass "open" s.listClasses
             ariaExpanded := some "false"
             toggleFocused := true }
  else s

/-- The implicit nav invariant: `aria-expanded` is exactly "true" iff the
list has class `open`. -/
def navInv (s : NavToggleState) : Prop :=
  s.ariaExpanded = some "true" ↔ hasClass "open" s.listClasses = true

instance (s : NavToggleState) : Decidable (navInv s) := by
  unfold navInv; infer_instance

/-- A `.nav__link` anchor element: its `href` attribute (`none` when the
attribute is absent) and its class list (the `nav__link` token itself is
left implicit, every element of a `List Link` carries it). -/
structure Link where
  href : Option String
  classes : List String
deriving DecidableEq, Repr

/-- Whether the first character list starts the second one. -/
def leadsWith : List Char → List Char → Bool
  | [], _ => true
  | _ :: _, [] => false
  | a :: as, b :: bs => a == b && leadsWith as bs

/-- Whether a link matches the selector `.nav__link[href^="#"]`: the
attribute is present and starts with `#`. -/
def hrefStartsHash (l : Link) : Bool :=
  match l.href with
  | some h => leadsWith "#".data h.data
  | none => false

/-- `clearActiveStates` (lines 75-77): removes class `active` from every
link captured by `qsa('.nav__link[href^="#"]')`.  Links whose href does not
start with `#` are not in that collection and keep their classes. -/
def clearActiveStates (links : List Link) : List Link :=
  links.map (fun l =>
    if hrefStartsHash l then { l with classes := removeClass "active" l.classes }
    else l)

/-- `qs('.nav__link[href="#id"]').classList.add('active')`: adds `active`
to the first link (in document order) whose href equals the given value;
when no link matches, `qs` returns null and the guarded add is skipped. -/
def addActiveFirst (href0 : String) : List Link → List Link
  | [] => []
  | l :: ls =>
    if l.href == some href0 then { l with classes := addClass "active" l.classes } :: ls
    else l :: addActiveFirst href0 ls

/-- `setActiveSection` (lines 80-86): clear all captured links, then add
`active` to the first `.nav__link[href="#sectionId"]`. -/
def setActiveSection (sectionId : String) (links : List Link) : List Link :=
  addActiveFirst ("#" ++ sectionId) (clearActiveStates links)

/-- Line 232: `qsa('.nav__link').forEach(l => l.classList.remove('active'))`
removes `active` from every nav link, regardless of href. -/
def clearAllActive (links : List Link) : List Link :=
  links.map (fun l => { l with classes := removeClass "active" l.classes })

/-- Line 233: `link.classList.add('active')` on the clicked link, the i-th
nav link in document order. -/
def setActiveAt (i : Nat) : List Link → List Link
  | [] => []
  | l :: ls =>
    match i with
    | 0 => { l with classes := addClass "active" l.classes } :: ls
    | j + 1 => l :: setActiveAt j ls

/-- The nav-link click handler (lines 224-244) restricted to the state it
mutates on the links themselves.  `docHasId tid` tells whether
`qs('#' + tid)` finds an element.  `link.getAttribute('href')` is
dereferenced with `.substring(1)` WITHOUT a null check: when the clicked
link has no href attribute the handler throws a TypeError, modelled as
`Except.error ()`.  When the target element is missing the handler does
nothing beyond `preventDefault`.  (The scroll and focus effects on the
target section are outside this state.) -/
def navLinkClick (docHasId : String → Bool) (i : Nat) (links : List Link) :
    Except Unit (List Link) :=
  match links[i]? with
  | none => Except.ok links
  | some l =>
    match l.href with
    | none => Except.error ()
    | some h =>
      if docHasId (h.drop 1) then Except.ok (setActiveAt i (clearAllActive links))
      else Except.ok links

/-- Number of nav links currently carrying class `active`. -/
def countActive (links : List Link) : Nat :=
  (links.filter (fun l => hasClass "active" l.classes)).length

/-- `setYear` (lines 26-29): with no `#year` element nothing happens,
otherwise its text content becomes the current year.  The argument is the
text content of the `#year` element, `none` when the element is missing. -/
def setYear (yearText : Option String) (currentYear : Int) : Option String :=
  match yearText with
  | none => none
  | some _ => some (toString currentYear)

/-- An anchor element as seen by `secureExternalLinks` (lines 201-207): its
`target` attribute and its `rel` reflected property (the empty string when
the attribute is absent, as `a.rel` reads in the DOM). -/
structure Anchor where
  target : Option String
  rel : String
deriving DecidableEq, Repr

/-- Whether an anchor matches the selector `a[target="_blank"]`. -/
def isBlank (a : Anchor) : Bool :=
  a.target == some "_blank"

/-- Substring test on character lists: `needle` occurs contiguously in the
haystack. -/
def containsSub (needle : List Char) : List Char → Bool
  | [] => needle.isEmpty
  | c :: t => leadsWith needle (c :: t) || containsSub needle t

/-- `/noopener/i.test(rel)`: case-insensitive substring test, embedded by
lower-casing the subject characters. -/
def hasNoopener (rel : String) : Bool :=
  containsSub "noopener".data (rel.data.map Char.toLower)

/-- The per-anchor body of `secureExternalLinks` (lines 202-206): an anchor
with `target="_blank"` whose rel does not already match `/noopener/i` gets
`'noopener'` appended, with a separating space when rel was non-empty
(the JS conditional `a.rel ? a.rel + ' ' : ''` tests string truthiness). -/
def secureAnchor (a : Anchor) : Anchor :=
  if isBlank a && !hasNoopener a.rel then
    { a with rel := (if a.rel = "" then "" else a.rel ++ " ") ++ "noopener" }
  else a

/-- `secureExternalLinks` over the document's anchors: `qsa` selects the
blank-target ones, the rest are untouched; the selection is folded into
the per-anchor guard. -/
def secureExternalLinks (anchors : List Anchor) : List Anchor :=
  anchors.map secureAnchor

/-- An element targeted by `quickReveal` (lines 168-199): its inline
`opacity`, `transform` and `transition` style properties (`none` when
unset) and whether the IntersectionObserver is currently observing it. -/
structure RevealItem where
  opacity : Option String
  transform : Option String
  transition : Option String
  observed : Bool
deriving DecidableEq, Repr

/-- `quickReveal`: when IntersectionObserver is unavailable every item is
immediately shown (`el.style.opacity = 1` stringifies to "1", transform
`'none'`) and nothing is observed; otherwise every item is hidden
(opacity "0", `translateY(20px)`, a transition is installed) and observed
with threshold 0.1. -/
def quickReveal (hasObserver : Bool) (items : List RevealItem) : List RevealItem :=
  if !hasObserver then
    items.map (fun el => { el with opacity := some "1", transform := some "none" })
  else
    items.map (fun el =>
      { el with opacity := some "0"
                transform := some "translateY(20px)"
                transition := some "opacity .6s ease, transform .6s ease"
                observed := true })

/-- The observer callback of `quickReveal` (lines 185-196) on one entry:
only items still observed produce entries; an intersecting entry is shown
and unobserved (`io.unobserve`), any other entry is untouched. -/
def revealStep (isIntersecting : Bool) (el : RevealItem) : RevealItem :=
  if isIntersecting && el.observed then
    { el with opacity := some "1", transform := some "translateY(0)", observed := false }
  else el

/-- A card element (`.exp-card`, `.feature`, `.skill-block`, `.cert-card`)
as seen by `enhanceAccessibility` (lines 247-254): its `tabindex`
attribute and a count of `click()` invocations. -/
structure Card where
  tabindex : Option String
  clicks : Nat
deriving DecidableEq, Repr

/-- Line 248: `card.setAttribute('tabindex', '0')`. -/
def setupCard (c : Card) : Card :=
  { c with tabindex := some "0" }

/-- The card keydown handler (lines 249-253): Enter or space invokes
`card.click()`, any other key does nothing. -/
def cardKeydown (key : String) (c : Card) : Card :=
  if key == "Enter" || key == " " then { c with clicks := c.clicks + 1 }
  else c

/-- The element a skip link points to: whether it holds focus and whether
`scrollIntoView({ behavior: 'smooth' })` was invoked on it. -/
structure SkipTarget where
  focused : Bool
  scrolled : Bool
deriving DecidableEq, Repr

/-- The state of a skip-link click: whether the event's default was
prevented and the result of `qs(skipLink.getAttribute('href'))`
(`none` when the referenced element does not exist). -/
structure SkipState where
  defaultPrevented : Bool
  target : Option SkipTarget
deriving DecidableEq, Repr

/-- The skip-link click handler (lines 213-220): always `preventDefault`;
when the target exists, focus it and smooth-scroll it into view. -/
def skipLinkClick (s : SkipState) : SkipState :=
  let s1 : SkipState := { s with defaultPrevented := true }
  match s1.target with
  | some t => { s1 with target := some { t with focused := true, scrolled := true } }
  | none => s1

/- ## Helper lemmas about class lists -/

theorem hasClass_removeClass (cls : String) (cs : List String) :
    hasClass cls (removeClass cls cs) = false := by
  induction cs with
  | nil => rfl
  | cons c cs ih =>
    by_cases h : c == cls
    · simp [removeClass, h, ih]
    · simp [removeClass, h, hasClass, ih]

theorem hasClass_append_self (cls : String) (cs : List String) :
    hasClass cls (cs ++ [cls]) = true := by
  induction cs with
  | nil => simp [hasClass]
  | cons c cs ih => simp [hasClass, ih]

theorem hasClass_addClass (cls : String) (cs : List String) :
    hasClass cls (addClass cls cs) = true := by
  unfold addClass
  by_cases h : hasClass cls cs
  · simp [h]
  · simp [h, hasClass_append_self]

/- ## Claims about the nav toggle -/

/-- Claim C2: a click on the nav toggle toggles the `open` class on the nav
list (added if absent, removed if present), sets `aria-expanded` to the
resulting open state, and two consecutive clicks restore the original
open/closed state. -/
theorem navToggle_click_toggles (s : NavToggleState) :
    (hasClass "open" (toggleClick s).listClasses = !(hasClass "open" s.listClasses)) ∧
    ((toggleClick s).ariaExpanded =
      some (if hasClass "open" (toggleClick s).listClasses then "true" else "false")) ∧
    (hasClass "open" (toggleClick (toggleClick s)).listClasses =
      hasClass "open" s.listClasses) := by
  have key : ∀ t : NavToggleState,
      hasClass "open" (toggleClick t).listClasses = !(hasClass "open" t.listClasses) ∧
      (toggleClick t).ariaExpanded =
        some (if hasClass "open" (toggleClick t).listClasses then "true" else "false") := by
    intro t
    unfold toggleClick toggleClass
    by_cases h : hasClass "open" t.listClasses
    · simp [h, hasClass_removeClass]
    · simp [h, hasClass_append_self]
  refine ⟨(key s).1, (key s).2, ?_⟩
  rw [(key (toggleClick s)).1, (key s).1, Bool.not_not]

/-- Claim C8: each of the four nav-toggle handlers preserves the invariant
that the toggle's `aria-expanded` attribute is "true" exactly when the nav
list has class `open`; the toggle click handler even establishes it
unconditionally, and so do the mutating branches of the other three. -/
theorem navToggle_aria_invariant (s : NavToggleState) (h : navInv s)
    (b : Bool) (k : String) :
    navInv (toggleClick s) ∧ navInv (listClick b s) ∧
    navInv (docClick b s) ∧ navInv (escapeKeydown k s) := by
  refine ⟨?_, ?_, ?_, ?_⟩
  · unfold toggleClick toggleClass navInv
    by_cases ho : hasClass "open" s.listClasses
    · simp [ho, hasClass_removeClass]
    · simp [ho, hasClass_append_self]
  · unfold listClick navInv
    cases b with
    | false => exact h
    | true => simp [hasClass_removeClass]
  · unfold docClick navInv
    cases b with
    | true => exact h
    | false => simp [hasClass_removeClass]
  · unfold escapeKeydown navInv
    by_cases hc : (k == "Escape" && hasClass "open" s.listClasses) = true
    · simp [hc, hasClass_removeClass]
    · simp only [hc]
      simp only [Bool.not_eq_true] at hc
      exact h

/-- Witness for C8 at a concrete state satisfying the invariant. -/
theorem navToggle_aria_invariant_witness :
    navInv (toggleClick ⟨["nav__list"], some "false", false⟩) :=
  (navToggle_aria_invariant ⟨["nav__list"], some "false", false⟩ (by decide)
    true "a").1

/-- Claim C10: the Escape keydown handler is a no-op (no class, attribute or
focus change) whenever the nav list lacks class `open`; when `open` is
present, pressing Escape removes it, sets `aria-expanded` to "false" and
moves focus to the toggle. -/
theorem escape_frame (s : NavToggleState) (k : String) :
    (hasClass "open" s.listClasses = false → escapeKeydown k s = s) ∧
    (hasClass "open" s.listClasses = true →
      escapeKeydown "Escape" s =
        { s with listClasses := removeClass "open" s.listClasses
                 ariaExpanded := some "false"
                 toggleFocused := true }) := by
  constructor
  · intro hno
    unfold escapeKeydown
    simp [hno]
  · intro hyes
    unfold escapeKeydown
    simp [hyes]

/-- Witness for C10: on a closed nav list, Escape changes nothing; on an
open one, it closes it. -/
theorem escape_frame_witness :
    escapeKeydown "Escape" ⟨["nav__list"], some "false", false⟩ =
      ⟨["nav__list"], some "false", false⟩ ∧
    escapeKeydown "Escape" ⟨["nav__list", "open"], some "true", false⟩ =
      ⟨["nav__list"], some "false", true⟩ :=
  ⟨(escape_frame ⟨["nav__list"], some "false", false⟩ "Escape").1 (by decide),
   (escape_frame ⟨["nav__list", "open"], some "true", false⟩ "Escape").2 (by decide)⟩

/- ## Helper lemmas about active links -/

theorem countActive_cons (l : Link) (ls : List Link) :
    countActive (l :: ls) =
      (if hasClass "active" l.classes then 1 else 0) + countActive ls := by
  unfold countActive
  rw [List.filter_cons]
  by_cases h : hasClass "active" l.classes = true
  · rw [if_pos h, if_pos h, List.length_cons]
    omega
  · rw [if_neg h, if_neg h]
    omega

theorem countActive_clearAllActive (links : List Link) :
    countActive (clearAllActive links) = 0 := by
  induction links with
  | nil => rfl
  | cons l ls ih =>
    simp only [clearAllActive, List.map] at ih ⊢
    rw [countActive_cons, hasClass_removeClass]
    simpa using ih

theorem countActive_clearActiveStates (links : List Link)
    (H : ∀ l ∈ links, hrefStartsHash l = true) :
    countActive (clearActiveStates links) = 0 := by
  induction links with
  | nil => rfl
  | cons l ls ih =>
    have hl : hrefStartsHash l = true := H l (List.mem_cons_self l ls)
    simp only [clearActiveStates, List.map] at ih ⊢
    rw [hl, if_pos rfl, countActive_cons, hasClass_removeClass]
    have := ih (fun x hx => H x (List.mem_cons_of_mem l hx))
    simpa using this

theorem countActive_addActiveFirst (href0 : String) (ls : List Link) :
    countActive (addActiveFirst href0 ls) ≤ countActive ls + 1 := by
  induction ls with
  | nil => simp [addActiveFirst, countActive]
  | cons l ls ih =>
    unfold addActiveFirst
    by_cases h : (l.href == some href0) = true
    · rw [if_pos h, countActive_cons, countActive_cons,
        if_pos (hasClass_addClass "active" l.classes)]
      by_cases ha : hasClass "active" l.classes = true
      · rw [if_pos ha]; omega
      · rw [if_neg ha]; omega
    · rw [if_neg h, countActive_cons, countActive_cons]
      have := ih
      omega

theorem countActive_setActiveAt (i : Nat) (ls : List Link) :
    countActive (setActiveAt i ls) ≤ countActive ls + 1 := by
  induction ls generalizing i with
  | nil => simp [setActiveAt, countActive]
  | cons l ls ih =>
    cases i with
    | zero =>
      simp only [setActiveAt]
      rw [countActive_cons, countActive_cons,
        if_pos (hasClass_addClass "active" l.classes)]
      by_cases ha : hasClass "active" l.classes = true
      · rw [if_pos ha]; omega
      · rw [if_neg ha]; omega
    | succ j =>
      simp only [setActiveAt]
      rw [countActive_cons, countActive_cons]
      have := ih j
      omega

/- ## Claims about active-link highlighting -/

/-- Claim C1: when every nav link's href starts with `#` (as on the page,
where all nav links point at section anchors), both operations that set an
active link enforce uniqueness: `setActiveSection` clears the captured
links and then adds `active` to at most one, and the nav-link click
handler, whenever it completes normally, either leaves the links untouched
or clears all of them and marks exactly the clicked one; in either case at
most one nav link carries `active` afterwards. -/
theorem activeLink_at_most_one (links : List Link) (sectionId : String)
    (H : ∀ l ∈ links, hrefStartsHash l = true) :
    countActive (setActiveSection sectionId links) ≤ 1 ∧
    (∀ (env : String → Bool) (i : Nat) (r : List Link),
      navLinkClick env i links = Except.ok r → r = links ∨ countActive r ≤ 1) := by
  constructor
  · unfold setActiveSection
    have h1 := countActive_addActiveFirst ("#" ++ sectionId) (clearActiveStates links)
    rw [countActive_clearActiveStates links H] at h1
    exact h1
  · intro env i r hr
    cases hg : links[i]? with
    | none =>
      have he : navLinkClick env i links = Except.ok links := by
        simp [navLinkClick, hg]
      rw [he] at hr
      exact Or.inl (Except.ok.inj hr).symm
    | some l =>
      cases hh : l.href with
      | none =>
        have he : navLinkClick env i links = Except.error () := by
          simp [navLinkClick, hg, hh]
        rw [he] at hr
        exact absurd hr (by simp)
      | some h =>
        by_cases hd : env (h.drop 1) = true
        · have he : navLinkClick env i links =
              Except.ok (setActiveAt i (clearAllActive links)) := by
            simp [navLinkClick, hg, hh, hd]
          rw [he] at hr
          refine Or.inr ?_
          rw [← Except.ok.inj hr]
          have hb := countActive_setActiveAt i (clearAllActive links)
          rw [countActive_clearAllActive links] at hb
          exact hb
        · have he : navLinkClick env i links = Except.ok links := by
            simp [navLinkClick, hg, hh, hd]
          rw [he] at hr
          exact Or.inl (Except.ok.inj hr).symm

/-- Witness for C1 on a concrete two-link nav bar. -/
theorem activeLink_at_most_one_witness :
    countActive (setActiveSection "about"
      [⟨some "#hero", ["active"]⟩, ⟨some "#about", []⟩]) ≤ 1 :=
  (activeLink_at_most_one
    [⟨some "#hero", ["active"]⟩, ⟨some "#about", []⟩] "about" (by decide)).1

/-- Claim C3 counterexample: the nav-link click handler is NOT guarded
against a missing href attribute; on a nav link whose href is absent,
`link.getAttribute('href').substring(1)` dereferences null and the handler
throws instead of silently doing nothing. -/
theorem navLinkClick_throws_on_missing_href :
    navLinkClick (fun _ => false) 0 [⟨none, ["nav__link"]⟩] = Except.error () := rfl

/-- Claim C3 as amended: the routines guarded by null checks silently skip
their behavior when the expected element is missing (`setYear` with no
`#year` element, the skip-link handler with a missing target, the nav-link
handler with a missing target section), but the nav-link click handler does
not guard the href attribute itself and throws when it is absent. -/
theorem missing_element_guards (y : Int) (s : SkipState)
    (links : List Link) (env : String → Bool) (i : Nat) :
    (setYear none y = none) ∧
    (s.target = none → skipLinkClick s = { s with defaultPrevented := true }) ∧
    (∀ l h, links[i]? = some l → l.href = some h → env (h.drop 1) = false →
      navLinkClick env i links = Except.ok links) ∧
    (∀ l, links[i]? = some l → l.href = none →
      navLinkClick env i links = Except.error ()) := by
  refine ⟨rfl, ?_, ?_, ?_⟩
  · intro ht
    unfold skipLinkClick
    simp [ht]
  · intro l h hg hh he
    simp [navLinkClick, hg, hh, he]
  · intro l hg hh
    simp [navLinkClick, hg, hh]

/-- Witness for the amended C3 at concrete inputs. -/
theorem missing_element_guards_witness :
    setYear none 2025 = none ∧
    skipLinkClick ⟨false, none⟩ = ⟨true, none⟩ ∧
    navLinkClick (fun _ => false) 0 [⟨some "#hero", ["nav__link"]⟩] =
      Except.ok [⟨some "#hero", ["nav__link"]⟩] ∧
    navLinkClick (fun _ => true) 0 [⟨none, ["nav__link"]⟩] = Except.error () := by
  have t := missing_element_guards 2025 ⟨false, none⟩
    [⟨some "#hero", ["nav__link"]⟩] (fun _ => false) 0
  have t2 := missing_element_guards 2025 ⟨false, none⟩
    [⟨none, ["nav__link"]⟩] (fun _ => true) 0
  exact ⟨t.1, t.2.1 rfl,
    t.2.2.1 ⟨some "#hero", ["nav__link"]⟩ "#hero" rfl rfl rfl,
    t2.2.2.2 ⟨none, ["nav__link"]⟩ rfl rfl⟩

/- ## Helper lemmas about rel attributes -/

theorem containsSub_append_left (n h2 h1 : List Char)
    (h : containsSub n h2 = true) : containsSub n (h1 ++ h2) = true := by
  induction h1 with
  | nil => simpa using h
  | cons c t ih => simp [containsSub, ih]

theorem hasNoopener_of_tail (r s : String) (h : hasNoopener s = true) :
    hasNoopener (r ++ s) = true := by
  unfold hasNoopener at h ⊢
  rw [String.data_append, List.map_append]
  exact containsSub_append_left _ _ _ h

theorem hasNoopener_secureAnchor (a : Anchor) :
    isBlank a = true → hasNoopener (secureAnchor a).rel = true := by
  intro hb
  unfold secureAnchor
  by_cases hn : hasNoopener a.rel = true
  · simp [hb, hn]
  · simp only [hb, hn, Bool.not_false, Bool.and_true, if_pos rfl,
      Bool.not_eq_true] at *
    by_cases hr : a.rel = ""
    · simp only [hr, if_pos rfl]
      exact hasNoopener_of_tail "" "noopener" (by decide)
    · simp only [hr, if_neg hr]
      exact hasNoopener_of_tail (a.rel ++ " ") "noopener" (by decide)

theorem secureAnchor_target (a : Anchor) :
    (secureAnchor a).target = a.target := by
  unfold secureAnchor
  by_cases h : (isBlank a && !hasNoopener a.rel) = true
  · rw [if_pos h]
  · rw [if_neg h]

theorem isBlank_secureAnchor (a : Anchor) : isBlank (secureAnchor a) = isBlank a := by
  unfold isBlank
  rw [secureAnchor_target]

theorem secureAnchor_of_hasNoopener (a : Anchor) (h : hasNoopener a.rel = true) :
    secureAnchor a = a := by
  unfold secureAnchor
  simp [h]

theorem secureAnchor_idem (a : Anchor) :
    secureAnchor (secureAnchor a) = secureAnchor a := by
  by_cases hb : isBlank a = true
  · exact secureAnchor_of_hasNoopener _ (hasNoopener_secureAnchor a hb)
  · have h0 : secureAnchor a = a := by
      unfold secureAnchor
      simp [hb]
    rw [h0, h0]

/- ## Claims about external link hardening -/

/-- Claim C4: after `secureExternalLinks` every anchor with
`target="_blank"` has a rel matching `/noopener/i`; anchors whose rel
already matched are untouched, and the others get `' noopener'` appended
(rel becomes exactly `"noopener"` when it was empty). -/
theorem secureExternalLinks_noopener (anchors : List Anchor) (a : Anchor) :
    (∀ b ∈ secureExternalLinks anchors, isBlank b = true → hasNoopener b.rel = true) ∧
    (hasNoopener a.rel = true → secureAnchor a = a) ∧
    (isBlank a = true → hasNoopener a.rel = false → a.rel ≠ "" →
      (secureAnchor a).rel = a.rel ++ " noopener") ∧
    (isBlank a = true → hasNoopener a.rel = false → a.rel = "" →
      (secureAnchor a).rel = "noopener") := by
  refine ⟨?_, ?_, ?_, ?_⟩
  · intro b hb hblank
    unfold secureExternalLinks at hb
    obtain ⟨a0, _, rfl⟩ := List.mem_map.mp hb
    rw [isBlank_secureAnchor] at hblank
    exact hasNoopener_secureAnchor a0 hblank
  · intro hn
    unfold secureAnchor
    simp [hn]
  · intro hb hn hr
    have h2 : secureAnchor a = { a with rel := (a.rel ++ " ") ++ "noopener" } := by
      unfold secureAnchor
      simp [hb, hn, hr]
    rw [h2, String.append_assoc]
    have hsp : (" " ++ "noopener" : String) = " noopener" := rfl
    rw [hsp]
  · intro hb hn hr
    have h2 : secureAnchor a = { a with rel := "" ++ "noopener" } := by
      unfold secureAnchor
      rw [hr] at hn ⊢
      simp [hb, hn]
    rw [h2]
    rfl

/-- Witness for C4: a blank-target anchor with `rel="noreferrer"` gains
`noopener`, keeping the old value. -/
theorem secureExternalLinks_noopener_witness :
    (secureAnchor ⟨some "_blank", "noreferrer"⟩).rel = "noreferrer noopener" :=
  (secureExternalLinks_noopener [] ⟨some "_blank", "noreferrer"⟩).2.2.1
    (by decide) (by decide) (by decide)

/-- Claim C9: `secureExternalLinks` is idempotent; a second run changes no
anchor's rel, in particular `noopener` is never appended twice. -/
theorem secureExternalLinks_idem (anchors : List Anchor) :
    secureExternalLinks (secureExternalLinks anchors) = secureExternalLinks anchors := by
  unfold secureExternalLinks
  induction anchors with
  | nil => rfl
  | cons a l ih => simp only [List.map_cons] at ih ⊢; rw [secureAnchor_idem, ih]

/- ## Claim about the reveal animation -/

/-- Claim C5: without IntersectionObserver every reveal item is immediately
shown (opacity "1", transform `none`) and nothing is hidden; with it every
item is initially hidden (opacity "0", `translateY(20px)`) and observed;
the first intersecting callback shows an item (opacity "1",
`translateY(0)`) and unobserves it, after which any further callback
leaves it unchanged, so each item is revealed at most once. -/
theorem quickReveal_behavior (items : List RevealItem) (el : RevealItem) (b : Bool) :
    (∀ e ∈ quickReveal false items, e.opacity = some "1" ∧ e.transform = some "none") ∧
    (∀ e ∈ quickReveal true items,
      e.opacity = some "0" ∧ e.transform = some "translateY(20px)" ∧ e.observed = true) ∧
    (el.observed = true → revealStep true el =
      { el with opacity := some "1", transform := some "translateY(0)", observed := false }) ∧
    (revealStep b (revealStep true el) = revealStep true el) := by
  refine ⟨?_, ?_, ?_, ?_⟩
  · intro e he
    unfold quickReveal at he
    simp only [Bool.not_false, if_pos rfl] at he
    obtain ⟨x, _, rfl⟩ := List.mem_map.mp he
    exact ⟨rfl, rfl⟩
  · intro e he
    unfold quickReveal at he
    simp only [Bool.not_true, Bool.false_eq_true, if_false] at he
    obtain ⟨x, _, rfl⟩ := List.mem_map.mp he
    exact ⟨rfl, rfl, rfl⟩
  · intro ho
    unfold revealStep
    simp [ho]
  · by_cases ho : el.observed = true
    · have h1 : revealStep true el =
          { el with opacity := some "1", transform := some "translateY(0)",
                    observed := false } := by
        unfold revealStep; simp [ho]
      rw [h1]
      unfold revealStep
      simp
    · have h1 : revealStep true el = el := by
        unfold revealStep
        simp only [Bool.true_and]
        simp [ho]
      rw [h1]
      unfold revealStep
      simp [ho]

/-- Witness for C5: a hidden observed item is revealed by its first
intersecting callback. -/
theorem quickReveal_behavior_witness :
    revealStep true ⟨some "0", some "translateY(20px)", none, true⟩ =
      ⟨some "1", some "translateY(0)", none, false⟩ :=
  (quickReveal_behavior [] ⟨some "0", some "translateY(20px)", none, true⟩
    false).2.2.1 rfl

/- ## Claim about card accessibility -/

/-- Claim C6: every card receives `tabindex="0"`, and its keydown handler
invokes `click()` exactly on Enter and on space, leaving the card
unaffected on any other key. -/
theorem card_accessibility (cards : List Card) (c : Card) (k : String) :
    (∀ d ∈ cards.map setupCard, d.tabindex = some "0") ∧
    (cardKeydown "Enter" c = { c with clicks := c.clicks + 1 }) ∧
    (cardKeydown " " c = { c with clicks := c.clicks + 1 }) ∧
    (k ≠ "Enter" → k ≠ " " → cardKeydown k c = c) := by
  refine ⟨?_, rfl, rfl, ?_⟩
  · intro d hd
    obtain ⟨x, _, rfl⟩ := List.mem_map.mp hd
    rfl
  · intro h1 h2
    unfold cardKeydown
    simp [h1, h2]

/-- Witness for C6: an unrelated key such as Tab leaves the card alone. -/
theorem card_accessibility_witness :
    cardKeydown "Tab" ⟨none, 0⟩ = ⟨none, 0⟩ :=
  (card_accessibility [] ⟨none, 0⟩ "Tab").2.2.2 (by decide) (by decide)

/- ## Claim about the skip link -/

/-- Claim C7: the skip-link click handler always prevents the default
navigation; when the referenced element exists it is focused and
smooth-scrolled into view, and when it does not exist nothing else
happens. -/
theorem skipLink_click_behavior (s : SkipState) (t : SkipTarget) :
    ((skipLinkClick s).defaultPrevented = true) ∧
    (s.target = none → skipLinkClick s = { s with defaultPrevented := true }) ∧
    (s.target = some t → skipLinkClick s =
      { defaultPrevented := true,
        target := some { t with focused := true, scrolled := true } }) := by
  refine ⟨?_, ?_, ?_⟩
  · unfold skipLinkClick
    cases ht : s.target <;> simp [ht]
  · intro ht
    unfold skipLinkClick
    simp [ht]
  · intro ht
    unfold skipLinkClick
    simp [ht]

/-- Witness for C7 at a concrete state with an existing target. -/
theorem skipLink_click_behavior_witness :
    skipLinkClick ⟨false, some ⟨false, false⟩⟩ = ⟨true, some ⟨true, true⟩⟩ :=
  (skipLink_click_behavior ⟨false, some ⟨false, false⟩⟩ ⟨false, false⟩).2.2 rfl
